import Mathlib

/-!
Verification of the real-time call-analysis dashboard (`app.py`).

The script wires three external services together: a transcription backend,
an LLM agent runner, and a CRM REST endpoint.  External calls (the agent
run, the Python `eval` builtin applied to raw role output, the HTTP POST,
the audio stream) are modelled by their outcomes, passed in as
`Except PyError _` values; everything the script itself computes is embedded
directly below.
-/

namespace RealTimeFeedback

/-- Python runtime values as they flow through the pipeline: the raw role
outputs are turned into values by `eval`, merged into the session results,
and rendered.  Dictionary keys are strings everywhere in this program. -/
inductive PyValue where
  | int (n : Int)
  | str (s : String)
  | list (xs : List PyValue)
  | dict (kvs : List (String × PyValue))
  | none

/-- The exception kinds the script can meet: a missing audio file, a failed
connection to a backend, an attribute lookup on a non-dict, iterating a
non-iterable, and evaluation failures from `eval` on malformed role output. -/
inductive PyError where
  | fileNotFoundError
  | connectionError
  | attributeError
  | typeError
  | valueError
  | syntaxError
deriving DecidableEq

/-- Association-list lookup, first match wins (a Python dict built by `eval`
has unique keys, so the order convention is immaterial here). -/
def pyLookup (kvs : List (String × PyValue)) (k : String) : Option PyValue :=
  match kvs with
  | [] => Option.none
  | (k', v) :: rest => if k' = k then some v else pyLookup rest k

/-- Python `d.get(k, dflt)`: returns the stored value or the default on a
dict; raises `AttributeError` on any other receiver. -/
def pyGet (v : PyValue) (k : String) (dflt : PyValue) : Except PyError PyValue :=
  match v with
  | .dict kvs => .ok ((pyLookup kvs k).getD dflt)
  | _ => .error .attributeError

/-- What Python iteration yields for a value: the elements of a list, the
characters of a string, the keys of a dict; other values are not iterable. -/
def pyIter (v : PyValue) : Option (List PyValue) :=
  match v with
  | .list xs => some xs
  | .str s => some (s.toList.map (fun c => PyValue.str (String.mk [c])))
  | .dict kvs => some (kvs.map (fun kv => PyValue.str kv.1))
  | _ => Option.none

/-- Python `cur.extend(v)`: appends the iteration of `v`, raising
`TypeError` when `v` is not iterable. -/
def pyExtend (cur : List PyValue) (v : PyValue) : Except PyError (List PyValue) :=
  match pyIter v with
  | some xs => .ok (cur ++ xs)
  | Option.none => .error .typeError

/-- The zeroed sentiment dict substituted on analysis failure (app.py:64). -/
def zeroSentiment : PyValue :=
  .dict [("positive", .int 0), ("negative", .int 0), ("neutral", .int 0)]

/-- The empty feedback dict substituted on analysis failure (app.py:64). -/
def emptyFeedbackBundle : PyValue :=
  .dict [("key_phrases", .list []), ("feedback", .list [])]

/-- The body of `analyze_chunk`'s `try` block (app.py:48-61): run the crew
(`kick` is the outcome, carrying the two raw task outputs in task order),
then `eval` each raw output in turn (`ev` is the behaviour of the `eval`
builtin).  Any raised error propagates to the handler. -/
def analyze_chunk_inner (kick : Except PyError (String × String))
    (ev : String → Except PyError PyValue) : Except PyError (PyValue × PyValue) :=
  match kick with
  | .error e => .error e
  | .ok (r1, r2) =>
    match ev r1 with
    | .error e => .error e
    | .ok v1 =>
      match ev r2 with
      | .error e => .error e
      | .ok v2 => .ok (v1, v2)

/-- `analyze_chunk` (app.py:47-64): the `try` body, with every exception
caught and replaced by the zeroed sentiment and empty feedback pair. -/
def analyze_chunk (kick : Except PyError (String × String))
    (ev : String → Except PyError PyValue) : PyValue × PyValue :=
  match analyze_chunk_inner kick ev with
  | .ok p => p
  | .error _ => (zeroSentiment, emptyFeedbackBundle)

/-- The slice of an HTTP response the script looks at. -/
structure HttpResponse where
  status_code : Nat

/-- `log_to_hubspot` (app.py:67-85): `reqOutcome` is the outcome of the
POST to the engagements endpoint; the function returns whether the status
is 201, and any transport error is caught and turned into `false`. -/
def log_to_hubspot (reqOutcome : Except PyError HttpResponse) : Bool :=
  match reqOutcome with
  | .ok r => r.status_code == 201
  | .error _ => false

/-- The `results` dict of the session state (app.py:28). -/
structure Results where
  sentiment : PyValue
  key_phrases : List PyValue
  feedback : List PyValue

/-- The session fields the background loop mutates (app.py:23-28): the
growing transcript and the results dict.  The `running` flag is shared with
the UI thread and is modelled separately (see `runLoop` and `UiState`). -/
structure SessionState where
  transcript : String
  results : Results

/-- The initial `results` value (app.py:28 and app.py:130). -/
def emptyResults : Results :=
  { sentiment := .dict [], key_phrases := [], feedback := [] }

/-- The session as reset by the Start handler (app.py:129-130). -/
def emptySession : SessionState :=
  { transcript := "", results := emptyResults }

/-- One iteration body of the simulated loop (app.py:113-117), given the
pair `analyze_chunk` returned for the chunk: append the chunk and a newline
to the transcript, overwrite the sentiment, then extend `key_phrases` and
`feedback` from the feedback dict with `.get(key, [])`.  Mutation is in
place in Python, so when a step raises, the state already updated by the
earlier lines is kept and the error escapes (second component). -/
def mergeStep (s : SessionState) (chunk : String) (sentiment fb : PyValue) :
    SessionState × Option PyError :=
  let s1 : SessionState := { s with transcript := s.transcript ++ chunk ++ "\n" }
  let s2 : SessionState := { s1 with results := { s1.results with sentiment := sentiment } }
  match pyGet fb "key_phrases" (.list []) with
  | .error e => (s2, some e)
  | .ok kv =>
    match pyExtend s2.results.key_phrases kv with
    | .error e => (s2, some e)
    | .ok kps =>
      let s3 : SessionState := { s2 with results := { s2.results with key_phrases := kps } }
      match pyGet fb "feedback" (.list []) with
      | .error e => (s3, some e)
      | .ok fv =>
        match pyExtend s3.results.feedback fv with
        | .error e => (s3, some e)
        | .ok fbs => ({ s3 with results := { s3.results with feedback := fbs } }, Option.none)

/-- The simulated `for` loop (app.py:103-119): before chunk `i` the shared
`running` flag is read; `flag i` is its value at that read (the Stop button
may flip it from the UI thread at any time).  On `false` the loop breaks;
otherwise the chunk is analysed (`analyze` is the total `analyze_chunk`
composition, which never raises) and merged; an error escaping a merge step
aborts the loop and the thread. -/
def runLoop (analyze : String → PyValue × PyValue) (flag : Nat → Bool) :
    List String → Nat → SessionState → SessionState × Option PyError
  | [], _, s => (s, Option.none)
  | c :: cs, i, s =>
    if flag i then
      match mergeStep s c (analyze c).1 (analyze c).2 with
      | (s', Option.none) => runLoop analyze flag cs (i + 1) s'
      | (s', some e) => (s', some e)
    else (s, Option.none)

/-- The same loop with the `running` flag held true throughout. -/
def runAll (analyze : String → PyValue × PyValue) :
    List String → SessionState → SessionState × Option PyError
  | [], s => (s, Option.none)
  | c :: cs, s =>
    match mergeStep s c (analyze c).1 (analyze c).2 with
    | (s', Option.none) => runAll analyze cs s'
    | (s', some e) => (s', some e)

/-- The canned six-line transcript hardcoded in `transcribe_real_time`
(app.py:103-110), in source order. -/
def simulatedChunks : List String :=
  ["Agent: Hello, this is a test discovery call from Test Corp. We provide customized marketing solutions to enhance your business growth. Can you share your current marketing challenges?",
   "Prospect: We’re struggling with lead generation and need better ROI on our campaigns.",
   "Agent: That’s a common challenge. Our solutions can optimize your campaigns using data-driven strategies. Can you describe your target audience?",
   "Prospect: Mostly small businesses. I’d like to know more about your pricing and implementation process.",
   "Agent: Let’s schedule a follow-up to discuss pricing and tailor a plan. Does next week work?",
   "Prospect: Yes, let’s do Tuesday."]

/-- What `transcribe_real_time` leaves behind: the session fields, whether
the normal exit (app.py:120-121, `transcriber.close()` then
`running := False`) was reached, and the exception, if any, that escaped
the thread body. -/
structure TranscribeResult where
  session : SessionState
  closedNormally : Bool
  err : Option PyError

/-- `transcribe_real_time` (app.py:88-121).  `connectOutcome` is the
outcome of `transcriber.connect()` (app.py:97, outside any handler);
`streamOutcome` the outcome of `transcriber.stream_file` (app.py:100,
inside a `try` whose only handler is `except FileNotFoundError`).  On that
one exception the simulated loop over the canned chunks runs; the live
path's `on_data` callbacks are driven by the external transcriber and out
of scope here.  After the `try` completes, the transcriber is closed and
the running flag cleared; an uncaught exception skips both. -/
def transcribe_real_time (connectOutcome streamOutcome : Except PyError Unit)
    (analyze : String → PyValue × PyValue) (flag : Nat → Bool)
    (s : SessionState) : TranscribeResult :=
  match connectOutcome with
  | .error e => ⟨s, false, some e⟩
  | .ok _ =>
    match streamOutcome with
    | .ok _ => ⟨s, true, Option.none⟩
    | .error .fileNotFoundError =>
      match runLoop analyze flag simulatedChunks 0 s with
      | (s', Option.none) => ⟨s', true, Option.none⟩
      | (s', some e) => ⟨s', false, some e⟩
    | .error e => ⟨s, false, some e⟩

/-- The UI-thread view of one session: the shared `running` flag, the
session fields, and how many background analysis threads are alive. -/
structure UiState where
  running : Bool
  session : SessionState
  activeTasks : Nat

/-- The three events that touch the session state machine: the Start
button (app.py:126-131), the Stop button (app.py:132-134), and the
background loop reaching its normal exit (app.py:120-121). -/
inductive UiEvent where
  | startPressed
  | stopPressed
  | loopExited
deriving DecidableEq

/-- The handlers: Start is a no-op while `running` is set, and otherwise
sets the flag, resets the session and spawns one thread; Stop clears the
flag; the loop's normal exit clears the flag and ends its thread. -/
def uiStep (u : UiState) : UiEvent → UiState
  | .startPressed =>
    if u.running then u
    else { running := true, session := emptySession, activeTasks := u.activeTasks + 1 }
  | .stopPressed => { u with running := false }
  | .loopExited => { u with running := false, activeTasks := u.activeTasks - 1 }

/-- An analyzer treated as a no-op: it returns empty dicts, so a merge
overwrites the sentiment with an empty dict and extends nothing. -/
def noopAnalyze : String → PyValue × PyValue :=
  fun _ => (.dict [], .dict [])

/-- The shape the spec expects of the sentiment role's output, stated from
the spec's words for comparison with the code's behaviour: a mapping with
exactly three numeric fields `positive`, `negative`, `neutral`. -/
def isNumericPy : PyValue → Bool
  | .int _ => true
  | _ => false

/-- See `isNumericPy`: the spec's "three-numeric-field mapping" for the
sentiment role (the parsing-policy claim compares the code against it). -/
def isSentimentShape : PyValue → Bool
  | .dict kvs =>
    kvs.length == 3
      && (match pyLookup kvs "positive" with | some v => isNumericPy v | Option.none => false)
      && (match pyLookup kvs "negative" with | some v => isNumericPy v | Option.none => false)
      && (match pyLookup kvs "neutral" with | some v => isNumericPy v | Option.none => false)
  | _ => false

/-! ## Helper lemmas about the merge step and the loop -/

theorem pyExtend_extends (cur : List PyValue) (v : PyValue) (l : List PyValue)
    (h : pyExtend cur v = .ok l) : cur <+: l := by
  unfold pyExtend at h
  cases hi : pyIter v with
  | none => rw [hi] at h; exact absurd h (by simp)
  | some xs => rw [hi] at h; cases h; exact ⟨xs, rfl⟩

theorem mergeStep_transcript (s : SessionState) (c : String) (a b : PyValue) :
    (mergeStep s c a b).1.transcript = s.transcript ++ c ++ "\n" := by
  simp only [mergeStep]
  repeat' split
  all_goals rfl

theorem mergeStep_sentiment (s : SessionState) (c : String) (a b : PyValue) :
    (mergeStep s c a b).1.results.sentiment = a := by
  simp only [mergeStep]
  repeat' split
  all_goals rfl

theorem mergeStep_key_phrases_extends (s : SessionState) (c : String) (a b : PyValue) :
    s.results.key_phrases <+: (mergeStep s c a b).1.results.key_phrases := by
  simp only [mergeStep]
  repeat' split
  all_goals first
    | exact List.prefix_refl _
    | exact pyExtend_extends _ _ _ (by assumption)

theorem mergeStep_feedback_extends (s : SessionState) (c : String) (a b : PyValue) :
    s.results.feedback <+: (mergeStep s c a b).1.results.feedback := by
  simp only [mergeStep]
  repeat' split
  all_goals first
    | exact List.prefix_refl _
    | exact pyExtend_extends _ _ _ (by assumption)

theorem runAll_extends (analyze : String → PyValue × PyValue) (cs : List String)
    (s : SessionState) :
    (∃ t, (runAll analyze cs s).1.transcript = s.transcript ++ t) ∧
    s.results.key_phrases <+: (runAll analyze cs s).1.results.key_phrases ∧
    s.results.feedback <+: (runAll analyze cs s).1.results.feedback := by
  induction cs generalizing s with
  | nil =>
    refine ⟨⟨"", ?_⟩, List.prefix_refl _, List.prefix_refl _⟩
    simp [runAll]
  | cons c cs ih =>
    rcases hm : mergeStep s c (analyze c).1 (analyze c).2 with ⟨s', err⟩
    have ht : s'.transcript = s.transcript ++ c ++ "\n" := by
      have := mergeStep_transcript s c (analyze c).1 (analyze c).2
      rw [hm] at this; exact this
    have hk : s.results.key_phrases <+: s'.results.key_phrases := by
      have := mergeStep_key_phrases_extends s c (analyze c).1 (analyze c).2
      rw [hm] at this; exact this
    have hf : s.results.feedback <+: s'.results.feedback := by
      have := mergeStep_feedback_extends s c (analyze c).1 (analyze c).2
      rw [hm] at this; exact this
    cases err with
    | none =>
      have hrun : runAll analyze (c :: cs) s = runAll analyze cs s' := by
        simp [runAll, hm]
      rcases ih s' with ⟨⟨t, ht'⟩, hk', hf'⟩
      refine ⟨⟨(c ++ "\n") ++ t, ?_⟩, ?_, ?_⟩
      · rw [hrun, ht', ht]
        simp [String.append_assoc]
      · rw [hrun]; exact hk.trans hk'
      · rw [hrun]; exact hf.trans hf'
    | some e =>
      have hrun : runAll analyze (c :: cs) s = (s', some e) := by
        simp [runAll, hm]
      refine ⟨⟨c ++ "\n", ?_⟩, ?_, ?_⟩
      · rw [hrun, ht]; simp [String.append_assoc]
      · rw [hrun]; exact hk
      · rw [hrun]; exact hf

theorem runAll_append_ok (analyze : String → PyValue × PyValue) (l1 l2 : List String)
    (s : SessionState) (h : (runAll analyze l1 s).2 = Option.none) :
    runAll analyze (l1 ++ l2) s = runAll analyze l2 (runAll analyze l1 s).1 := by
  induction l1 generalizing s with
  | nil => simp [runAll]
  | cons c cs ih =>
    rcases hm : mergeStep s c (analyze c).1 (analyze c).2 with ⟨s', err⟩
    cases err with
    | none =>
      have h' : (runAll analyze cs s').2 = Option.none := by
        have : runAll analyze (c :: cs) s = runAll analyze cs s' := by simp [runAll, hm]
        rw [this] at h; exact h
      calc runAll analyze ((c :: cs) ++ l2) s = runAll analyze (cs ++ l2) s' := by
            simp [runAll, hm]
        _ = runAll analyze l2 (runAll analyze cs s').1 := ih s' h'
        _ = runAll analyze l2 (runAll analyze (c :: cs) s).1 := by simp [runAll, hm]
    | some e =>
      exfalso
      have : runAll analyze (c :: cs) s = (s', some e) := by simp [runAll, hm]
      rw [this] at h; exact Option.noConfusion h

theorem runAll_singleton (analyze : String → PyValue × PyValue) (c : String)
    (s : SessionState) :
    (runAll analyze [c] s).1 = (mergeStep s c (analyze c).1 (analyze c).2).1 := by
  rcases hm : mergeStep s c (analyze c).1 (analyze c).2 with ⟨s', err⟩
  cases err <;> simp [runAll, hm]

theorem runLoop_eq_runAll_take (analyze : String → PyValue × PyValue)
    (flag : Nat → Bool) (j : Nat) (hflag : ∀ m, flag m = decide (m < j)) :
    ∀ (cs : List String) (i : Nat) (s : SessionState),
      runLoop analyze flag cs i s = runAll analyze (List.take (j - i) cs) s := by
  intro cs
  induction cs with
  | nil => intro i s; simp [runLoop, runAll]
  | cons c cs ih =>
    intro i s
    by_cases hij : i < j
    · have hfi : flag i = true := by rw [hflag]; exact decide_eq_true hij
      have htake : j - i = (j - (i + 1)) + 1 := by omega
      rw [htake, List.take_succ_cons]
      rcases hm : mergeStep s c (analyze c).1 (analyze c).2 with ⟨s', err⟩
      cases err with
      | none => simp [runLoop, runAll, hfi, hm, ih]
      | some e => simp [runLoop, runAll, hfi, hm]
    · have hfi : flag i = false := by rw [hflag]; simp [hij]
      have hz : j - i = 0 := by omega
      simp [runLoop, runAll, hfi, hz]

/-! ## The claims -/

/-- Claim C1: whenever the crew run raises or a raw role output fails to
evaluate (the try body ends in an error), `analyze_chunk` returns exactly
the pair of the zeroed sentiment dict and the empty feedback bundle —
never a partial result — and, being a total function of the outcomes, lets
no exception escape. -/
theorem analyze_chunk_failure_zeroed (kick : Except PyError (String × String))
    (ev : String → Except PyError PyValue) (e : PyError)
    (h : analyze_chunk_inner kick ev = Except.error e) :
    analyze_chunk kick ev = (zeroSentiment, emptyFeedbackBundle) := by
  simp only [analyze_chunk, h]

/-- Witness for `analyze_chunk_failure_zeroed`: a crew run that raises a
connection error. -/
theorem analyze_chunk_failure_zeroed_at :
    analyze_chunk (Except.error PyError.connectionError) (fun _ => Except.ok PyValue.none)
      = (zeroSentiment, emptyFeedbackBundle) :=
  analyze_chunk_failure_zeroed _ _ PyError.connectionError rfl

/-- Claim C2: `log_to_hubspot` returns true exactly when the POST came back
with status 201; any other status or a raised transport error yields false,
and no exception escapes (the function is total in the request outcome). -/
theorem log_to_hubspot_true_iff_created (o : Except PyError HttpResponse) :
    log_to_hubspot o = true ↔ ∃ r, o = Except.ok r ∧ r.status_code = 201 := by
  cases o with
  | ok r => simp [log_to_hubspot]
  | error e => simp [log_to_hubspot]

/-- Claim C3: one merge only ever extends the `key_phrases` and `feedback`
sequences (the old sequence is a prefix of the new one, so lengths are
non-decreasing and no element is removed or replaced), a merge never turns
a nonempty sequence empty, and pressing Start while idle resets both
sequences to empty. -/
theorem merge_extends_and_start_resets (s : SessionState) (chunk : String)
    (sent fb : PyValue) (u : UiState) (hu : u.running = false) :
    s.results.key_phrases <+: (mergeStep s chunk sent fb).1.results.key_phrases ∧
    s.results.feedback <+: (mergeStep s chunk sent fb).1.results.feedback ∧
    ((mergeStep s chunk sent fb).1.results.key_phrases = [] →
        s.results.key_phrases = []) ∧
    ((mergeStep s chunk sent fb).1.results.feedback = [] →
        s.results.feedback = []) ∧
    (uiStep u UiEvent.startPressed).session.results.key_phrases = [] ∧
    (uiStep u UiEvent.startPressed).session.results.feedback = [] := by
  refine ⟨mergeStep_key_phrases_extends s chunk sent fb,
    mergeStep_feedback_extends s chunk sent fb, ?_, ?_, ?_, ?_⟩
  · intro h
    have h' := mergeStep_key_phrases_extends s chunk sent fb
    rw [h] at h'
    exact List.prefix_nil.mp h'
  · intro h
    have h' := mergeStep_feedback_extends s chunk sent fb
    rw [h] at h'
    exact List.prefix_nil.mp h'
  · simp [uiStep, hu, emptySession, emptyResults]
  · simp [uiStep, hu, emptySession, emptyResults]

/-- Witness for `merge_extends_and_start_resets`: a merge into the fresh
session with a non-dict feedback value, and Start pressed while idle. -/
theorem merge_extends_and_start_resets_at :
    emptySession.results.key_phrases <+:
        (mergeStep emptySession "hi" PyValue.none PyValue.none).1.results.key_phrases ∧
    emptySession.results.feedback <+:
        (mergeStep emptySession "hi" PyValue.none PyValue.none).1.results.feedback ∧
    ((mergeStep emptySession "hi" PyValue.none PyValue.none).1.results.key_phrases = [] →
        emptySession.results.key_phrases = []) ∧
    ((mergeStep emptySession "hi" PyValue.none PyValue.none).1.results.feedback = [] →
        emptySession.results.feedback = []) ∧
    (uiStep ⟨false, emptySession, 0⟩ UiEvent.startPressed).session.results.key_phrases = [] ∧
    (uiStep ⟨false, emptySession, 0⟩ UiEvent.startPressed).session.results.feedback = [] :=
  merge_extends_and_start_resets emptySession "hi" PyValue.none PyValue.none
    ⟨false, emptySession, 0⟩ rfl

/-- Claim C4: after merging any error-free sequence of chunks and then one
more chunk, the stored sentiment equals exactly the sentiment produced for
that most recently merged chunk — each merge overwrites, never combines. -/
theorem sentiment_reflects_last_merged_chunk (analyze : String → PyValue × PyValue)
    (cs : List String) (c : String) (s : SessionState)
    (h : (runAll analyze cs s).2 = Option.none) :
    (runAll analyze (cs ++ [c]) s).1.results.sentiment = (analyze c).1 := by
  rw [runAll_append_ok analyze cs [c] s h, runAll_singleton]
  exact mergeStep_sentiment _ _ _ _

/-- Witness for `sentiment_reflects_last_merged_chunk`: one chunk merged
into the fresh session. -/
theorem sentiment_reflects_last_merged_chunk_at :
    (runAll noopAnalyze ([] ++ ["hello"]) emptySession).1.results.sentiment
      = (noopAnalyze "hello").1 :=
  sentiment_reflects_last_merged_chunk noopAnalyze [] "hello" emptySession rfl

set_option maxRecDepth 100000 in
/-- Claim C5 counterexample: running the whole canned list with a no-op
analyzer and the flag held true leaves a transcript that is NOT the six
lines joined by newlines — each chunk is appended with a trailing newline,
so the final string carries one extra newline at the end. -/
theorem simulated_transcript_ne_plain_join :
    (transcribe_real_time (Except.ok ()) (Except.error PyError.fileNotFoundError) noopAnalyze
        (fun _ => true) emptySession).session.transcript
      ≠ String.intercalate "\n" simulatedChunks := by
  decide

set_option maxRecDepth 100000 in
/-- Claim C5 as amended: under a no-op analyzer and the flag held true, the
final transcript equals the six canned lines joined by newlines with one
trailing newline appended (each line is suffixed by a newline). -/
theorem simulated_transcript_join_trailing_newline :
    (transcribe_real_time (Except.ok ()) (Except.error PyError.fileNotFoundError) noopAnalyze
        (fun _ => true) emptySession).session.transcript
      = String.intercalate "\n" simulatedChunks ++ "\n" := by
  rfl

/-- Claim C6: if the running flag reads true for the first `j` checks and
false afterwards (a Stop mid-sequence), the loop computes exactly the fold
over the first `j` chunks — no chunk at or past the flip is appended or
merged — and everything merged before the flip is preserved: the initial
transcript is a prefix of the final one and both cumulative sequences
extend their initial values. -/
theorem stop_flag_truncates_loop (analyze : String → PyValue × PyValue)
    (flag : Nat → Bool) (j : Nat) (cs : List String) (s : SessionState)
    (hflag : ∀ m, flag m = decide (m < j)) :
    runLoop analyze flag cs 0 s = runAll analyze (List.take j cs) s ∧
    (∃ t, (runLoop analyze flag cs 0 s).1.transcript = s.transcript ++ t) ∧
    s.results.key_phrases <+: (runLoop analyze flag cs 0 s).1.results.key_phrases ∧
    s.results.feedback <+: (runLoop analyze flag cs 0 s).1.results.feedback := by
  have h0 : runLoop analyze flag cs 0 s = runAll analyze (List.take j cs) s := by
    have h := runLoop_eq_runAll_take analyze flag j hflag cs 0 s
    simpa using h
  refine ⟨h0, ?_, ?_, ?_⟩ <;> rw [h0]
  · exact (runAll_extends analyze _ s).1
  · exact (runAll_extends analyze _ s).2.1
  · exact (runAll_extends analyze _ s).2.2

/-- Witness for `stop_flag_truncates_loop`: two chunks with the flag
flipped after the first. -/
theorem stop_flag_truncates_loop_at :
    runLoop noopAnalyze (fun m => decide (m < 1)) ["a", "b"] 0 emptySession
        = runAll noopAnalyze (List.take 1 ["a", "b"]) emptySession ∧
    (∃ t, (runLoop noopAnalyze (fun m => decide (m < 1)) ["a", "b"] 0 emptySession).1.transcript
        = emptySession.transcript ++ t) ∧
    emptySession.results.key_phrases <+:
        (runLoop noopAnalyze (fun m => decide (m < 1)) ["a", "b"] 0
          emptySession).1.results.key_phrases ∧
    emptySession.results.feedback <+:
        (runLoop noopAnalyze (fun m => decide (m < 1)) ["a", "b"] 0
          emptySession).1.results.feedback :=
  stop_flag_truncates_loop noopAnalyze _ 1 ["a", "b"] emptySession (fun _ => rfl)

/-- Claim C7 counterexample: the empty dict literal evaluates successfully
yet is not the expected three-numeric-field sentiment mapping, and the
analyzer's try body returns it unchanged instead of raising — there is no
schema validation, so a syntactically valid literal of the wrong shape does
not raise. -/
theorem analyzer_accepts_wrong_shape_literal :
    analyze_chunk_inner (Except.ok ("\x7b\x7d", "\x7b\x7d"))
        (fun _ => Except.ok (PyValue.dict []))
      = Except.ok (PyValue.dict [], PyValue.dict []) ∧
    isSentimentShape (PyValue.dict []) = false :=
  ⟨rfl, rfl⟩

/-- Claim C7 as amended: each raw role output is interpreted directly by
the expression evaluator with no schema validation or type coercion:
whenever both raw outputs evaluate successfully, the two values are
returned exactly as produced, whatever their shape; an exception inside
the analyzer arises only from the crew run or from evaluation itself. -/
theorem analyzer_no_schema_validation (ev : String → Except PyError PyValue)
    (r1 r2 : String) (v1 v2 : PyValue)
    (h1 : ev r1 = Except.ok v1) (h2 : ev r2 = Except.ok v2) :
    analyze_chunk_inner (Except.ok (r1, r2)) ev = Except.ok (v1, v2) := by
  simp [analyze_chunk_inner, h1, h2]

/-- Witness for `analyzer_no_schema_validation`: two empty-dict outputs. -/
theorem analyzer_no_schema_validation_at :
    analyze_chunk_inner (Except.ok ("\x7b\x7d", "\x7b\x7d"))
        (fun _ => Except.ok (PyValue.dict []))
      = Except.ok (PyValue.dict [], PyValue.dict []) :=
  analyzer_no_schema_validation (fun _ => Except.ok (PyValue.dict []))
    "\x7b\x7d" "\x7b\x7d" (PyValue.dict []) (PyValue.dict []) rfl rfl

set_option maxRecDepth 100000 in
/-- Claim C8 counterexample: a connection error raised while streaming is
not caught — none of the canned chunks is processed (the transcript stays
empty) and the error escapes the function — whereas a missing audio file
does fall back to the canned chunks (the transcript becomes nonempty). -/
theorem connection_error_without_fallback :
    (transcribe_real_time (Except.ok ()) (Except.error PyError.connectionError) noopAnalyze
        (fun _ => true) emptySession).session.transcript = "" ∧
    (transcribe_real_time (Except.ok ()) (Except.error PyError.connectionError) noopAnalyze
        (fun _ => true) emptySession).err = some PyError.connectionError ∧
    (transcribe_real_time (Except.ok ()) (Except.error PyError.fileNotFoundError) noopAnalyze
        (fun _ => true) emptySession).session.transcript ≠ "" := by
  refine ⟨rfl, rfl, ?_⟩
  decide

/-- Claim C8 as amended: only a FileNotFoundError from the streaming step
triggers the fallback to the simulated chunk loop; any other stream
failure leaves the session fields untouched and propagates out of the
function with no fallback. -/
theorem fallback_only_on_missing_file (e : PyError)
    (he : e ≠ PyError.fileNotFoundError) (analyze : String → PyValue × PyValue)
    (flag : Nat → Bool) (s : SessionState) :
    transcribe_real_time (Except.ok ()) (Except.error e) analyze flag s
        = ⟨s, false, some e⟩ ∧
    (transcribe_real_time (Except.ok ()) (Except.error PyError.fileNotFoundError)
        analyze flag s).session = (runLoop analyze flag simulatedChunks 0 s).1 := by
  constructor
  · cases e <;> first | exact absurd rfl he | rfl
  · rcases hr : runLoop analyze flag simulatedChunks 0 s with ⟨s', err⟩
    cases err <;> simp [transcribe_real_time, hr]

/-- Witness for `fallback_only_on_missing_file`: a connection error. -/
theorem fallback_only_on_missing_file_at :
    transcribe_real_time (Except.ok ()) (Except.error PyError.connectionError) noopAnalyze
        (fun _ => true) emptySession
        = ⟨emptySession, false, some PyError.connectionError⟩ ∧
    (transcribe_real_time (Except.ok ()) (Except.error PyError.fileNotFoundError) noopAnalyze
        (fun _ => true) emptySession).session
      = (runLoop noopAnalyze (fun _ => true) simulatedChunks 0 emptySession).1 :=
  fallback_only_on_missing_file PyError.connectionError (by decide) noopAnalyze
    (fun _ => true) emptySession

/-- Claim C9: the session state machine — Start while idle sets the flag,
resets the session and spawns exactly one task; Start while running changes
nothing (no new task); Stop and the loop's normal exit clear the flag; and
those two events are the only ones that move a running session back to
idle. -/
theorem session_state_machine (u : UiState) :
    (u.running = false → uiStep u UiEvent.startPressed
        = { running := true, session := emptySession, activeTasks := u.activeTasks + 1 }) ∧
    (u.running = true → uiStep u UiEvent.startPressed = u) ∧
    (uiStep u UiEvent.stopPressed).running = false ∧
    (uiStep u UiEvent.loopExited).running = false ∧
    (∀ e, u.running = true → (uiStep u e).running = false →
        e = UiEvent.stopPressed ∨ e = UiEvent.loopExited) := by
  refine ⟨?_, ?_, rfl, rfl, ?_⟩
  · intro h; simp [uiStep, h]
  · intro h; simp [uiStep, h]
  · intro e hr hf
    cases e with
    | startPressed => rw [uiStep, hr] at hf; simp [hr] at hf
    | stopPressed => exact Or.inl rfl
    | loopExited => exact Or.inr rfl

/-- Claim C10: merging a feedback dict that lacks the `key_phrases` key
leaves the cumulative key-phrase sequence unchanged, likewise for the
`feedback` key, and with both keys missing the merge completes without
raising — the missing key is an empty extension, not an error. -/
theorem missing_feedback_keys_leave_lists (s : SessionState) (chunk : String)
    (sent : PyValue) (kvs : List (String × PyValue)) :
    (pyLookup kvs "key_phrases" = Option.none →
        (mergeStep s chunk sent (PyValue.dict kvs)).1.results.key_phrases
          = s.results.key_phrases) ∧
    (pyLookup kvs "feedback" = Option.none →
        (mergeStep s chunk sent (PyValue.dict kvs)).1.results.feedback
          = s.results.feedback) ∧
    (pyLookup kvs "key_phrases" = Option.none → pyLookup kvs "feedback" = Option.none →
        (mergeStep s chunk sent (PyValue.dict kvs)).2 = Option.none) := by
  refine ⟨?_, ?_, ?_⟩
  · intro hk
    simp only [mergeStep, pyGet, hk, Option.getD, pyExtend, pyIter]
    repeat' split
    all_goals simp
  · intro hf
    simp only [mergeStep, pyGet, hf, Option.getD, pyExtend, pyIter]
    repeat' split
    all_goals simp
  · intro hk hf
    simp only [mergeStep, pyGet, hk, hf, Option.getD, pyExtend, pyIter]

end RealTimeFeedback
